import Mathlib

/-!
Shallow embedding of `src/Zynthian/zynthian_ctrldev_akai_mpk_225.py`, the
Zynthian control-device driver for the Akai MPK 225.

The driver is a plugin: MIDI transport, mixer, chain manager and the CUIA
command bus are host collaborators.  We model the host-owned mutable data the
driver touches (`Env`: the chain manager's index -> chain map and the zynmixer
level/balance/mute tables) as explicit state, and every outward call the driver
makes (`send_cuia`, `set_active`, `on_screen_change` forwarding) as an emitted
`Action`.  Driver-internal state (`DriverState`) holds the current-handler
pointer, the last shown screen, `MixerHandler._chains_bank` and
`DeviceHandler._last_cc_values`, exactly the mutable attributes the source
classes declare.

MIDI bytes are modelled as `Nat` with the same masks (`&&& 0x7F`, `&&& 0x0F`,
`>>> 4`) the source applies.  Mixer levels and balances are modelled as `ℚ`;
the source computes `minv + (ccval / 127.0) * (maxv - minv)` in floating point
and we embed the same expression over the rationals.
-/

namespace MPK225

/-! ### Module-level constants

The source reassigns the `CONST` attributes at import time (lines 52-56):
`CONST.MIDI_NOTE_OFF = 0x80`, `CONST.MIDI_NOTE_ON = 0x90`,
`CONST.MIDI_CC = 0xB0`, `CONST.MIDI_PC = 0xC0`.  These are the values
`midi_event` compares against. -/

def MIDI_NOTE_OFF : Nat := 0x80

def MIDI_NOTE_ON : Nat := 0x90

def MIDI_CC : Nat := 0xB0

def MIDI_PC : Nat := 0xC0

/-- A chain object as the driver sees it: `chain_id`, `mixer_chan` and the
`solo` flag (read as `chain.solo`, written through `chain.set_solo`). -/
structure Chain where
  chain_id : Nat
  mixer_chan : Nat
  solo : Bool
  deriving DecidableEq, Repr

/-- The zynmixer tables the driver reads and writes:
`get_level/set_level`, `get_balance/set_balance`, `get_mute/set_mute`. -/
structure ZynMixer where
  level : Nat → ℚ
  balance : Nat → ℚ
  mute : Nat → Bool

/-- Host-owned state the driver reads and mutates: the chain manager's
`get_chain_by_index` map and the zynmixer. -/
structure Env where
  chains : Nat → Option Chain
  mixer : ZynMixer

def set_level (m : ZynMixer) (chan : Nat) (v : ℚ) : ZynMixer :=
  { m with level := fun c => if c = chan then v else m.level c }

def set_balance (m : ZynMixer) (chan : Nat) (v : ℚ) : ZynMixer :=
  { m with balance := fun c => if c = chan then v else m.balance c }

def set_mute (m : ZynMixer) (chan : Nat) (v : Bool) : ZynMixer :=
  { m with mute := fun c => if c = chan then v else m.mute c }

/-- `chain.set_solo(value)` mutates the chain object returned by
`get_chain_by_index(index)`; we update the map at that index. -/
def set_solo (e : Env) (index : Nat) (v : Bool) : Env :=
  { e with chains := fun i =>
      if i = index then (e.chains i).map (fun ch => { ch with solo := v })
      else e.chains i }

/-- The three input-handling modes of the driver. -/
inductive HandlerId where
  | mixer
  | device
  | pattern
  deriving DecidableEq, Repr

/-- An outward call made by the driver into the host:
`state_manager.send_cuia`, `handler.set_active`, or the forwarding of a
screen-change signal to a handler's `on_screen_change`. -/
inductive Action where
  | cuia (cmd : String) (args : List Int)
  | setActive (h : HandlerId) (b : Bool)
  | screenChange (h : HandlerId) (screen : String)
  deriving DecidableEq, Repr

/-! ### MixerHandler -/

/-- Mutable state of `MixerHandler`: only `self._chains_bank`
(set to 0 in `__init__` and never written elsewhere). -/
structure MixerState where
  chains_bank : Nat
  deriving DecidableEq, Repr

namespace MixerHandler

def CHAN_KNOBS_A : Nat := 1
def CHAN_KNOBS_B : Nat := 2
def CHAN_KNOBS_C : Nat := 3

def CC_KNOBS_START : Nat := 50
def CC_KNOBS_END : Nat := 57

def CHAN_PADS : Nat := 10
def NOTE_PAD_START_A : Nat := 36
def NOTE_PAD_END_A : Nat := 43
def NOTE_PAD_START_B : Nat := 44
def NOTE_PAD_END_B : Nat := 51

def CHAN_TRANSPORT : Nat := 0
def CC_LOOP : Nat := 114
def CC_RWD : Nat := 115
def CC_FFW : Nat := 116
def CC_STOP : Nat := 117
def CC_PLAY : Nat := 118
def CC_REC : Nat := 119

/-- `MixerHandler._update_chain(type, ccnum, ccval, minv, maxv)`.
Returns the updated host state and the boolean the source returns.
For `"level"`/`"balance"` the source picks a getter/setter pair, overwrites
the read value with `minv + (ccval/127.0)*(maxv-minv)` when both bounds are
given, and writes it back; `"mute_toggle"`/`"solo_toggle"` return early; any
other type selects no setter and the final write is skipped
(`if 'set_value' in locals()`). -/
def update_chain (s : MixerState) (env : Env) (ty : String)
    (ccnum ccval : Nat) (minv maxv : Option ℚ) : Env × Bool :=
  let index := ccnum - CC_KNOBS_START + s.chains_bank * 8
  match env.chains index with
  | none => (env, false)
  | some chain =>
    if chain.chain_id = 0 then (env, false)
    else
      let mixer_chan := chain.mixer_chan
      if ty = "mute_toggle" then
        let value := ! env.mixer.mute mixer_chan
        ({ env with mixer := set_mute env.mixer mixer_chan value }, true)
      else if ty = "solo_toggle" then
        let value := ! chain.solo
        (set_solo env index value, true)
      else
        let getset : Option ((Nat → ℚ) × (ZynMixer → Nat → ℚ → ZynMixer)) :=
          if ty = "level" then some (env.mixer.level, set_level)
          else if ty = "balance" then some (env.mixer.balance, set_balance)
          else none
        match getset with
        | none => (env, true)
        | some (get, setv) =>
          let value := get mixer_chan
          let value :=
            match minv, maxv with
            | some mn, some mx => mn + ((ccval : ℚ) / 127) * (mx - mn)
            | _, _ => value
          ({ env with mixer := setv env.mixer mixer_chan value }, true)

/-- `MixerHandler._update_volume(ccnum, ccval)`. -/
def update_volume (s : MixerState) (env : Env) (ccnum ccval : Nat) : Env × Bool :=
  update_chain s env "level" ccnum ccval (some 0) (some 100)

/-- `MixerHandler._update_pan(ccnum, ccval)`. -/
def update_pan (s : MixerState) (env : Env) (ccnum ccval : Nat) : Env × Bool :=
  update_chain s env "balance" ccnum ccval (some (-100)) (some 100)

/-- `MixerHandler.note_on(note, channel, velocity)`: Bank A pads toggle mute,
Bank B pads toggle solo; velocity is unused by the source. -/
def note_on (s : MixerState) (env : Env) (note channel _velocity : Nat) : Env :=
  if channel = CHAN_PADS then
    if NOTE_PAD_START_A ≤ note ∧ note ≤ NOTE_PAD_END_A then
      (update_chain s env "mute_toggle"
        (note - NOTE_PAD_START_A + CC_KNOBS_START) 127 none none).1
    else if NOTE_PAD_START_B ≤ note ∧ note ≤ NOTE_PAD_END_B then
      (update_chain s env "solo_toggle"
        (note - NOTE_PAD_START_B + CC_KNOBS_START) 127 none none).1
    else env
  else env

/-- `MixerHandler.cc_change_with_channel(channel, ccnum, ccval)`:
transport CCs on channel 0 send CUIA commands; knob CCs 50..57 update
volume (channel 1), pan (channel 2) or the send placeholder (channel 3). -/
def cc_change_with_channel (s : MixerState) (env : Env)
    (channel ccnum ccval : Nat) : Env × List Action :=
  if channel = CHAN_TRANSPORT then
    let acts :=
      if ccnum = CC_STOP then [Action.cuia "STOP_AUDIO_PLAY" []]
      else if ccnum = CC_PLAY then [Action.cuia "TOGGLE_AUDIO_PLAY" []]
      else if ccnum = CC_REC then [Action.cuia "TOGGLE_AUDIO_RECORD" []]
      else if ccnum = CC_LOOP then [Action.cuia "TOGGLE_LOOP" []]
      else if ccnum = CC_FFW then [Action.cuia "FORWARD" []]
      else if ccnum = CC_RWD then [Action.cuia "BACKWARD" []]
      else []
    (env, acts)
  else if CC_KNOBS_START ≤ ccnum ∧ ccnum ≤ CC_KNOBS_END then
    if channel = CHAN_KNOBS_A then ((update_volume s env ccnum ccval).1, [])
    else if channel = CHAN_KNOBS_B then ((update_pan s env ccnum ccval).1, [])
    else if channel = CHAN_KNOBS_C then (env, [])
    else (env, [])
  else (env, [])

end MixerHandler

/-! ### DeviceHandler -/

/-- Mutable state of `DeviceHandler`: the per-knob absolute-value cache
`self._last_cc_values = {}` created in `__init__`, keyed by
`(channel, ccnum)`. -/
structure DeviceState where
  last_cc_values : (Nat × Nat) → Option Nat

namespace DeviceHandler

def CHAN_PADS : Nat := 10
def NOTE_PAD_UP : Nat := 36
def NOTE_PAD_DOWN : Nat := 37
def NOTE_PAD_LEFT : Nat := 38
def NOTE_PAD_RIGHT : Nat := 39
def NOTE_PAD_BACK : Nat := 40
def NOTE_PAD_SELECT : Nat := 41
def NOTE_PAD_SNAPSHOT : Nat := 42
def NOTE_PAD_LAYER : Nat := 43

/-- `DeviceHandler.note_on(note, channel, velocity)`: navigation pads on
channel 10; velocity is unused by the source. -/
def note_on (note channel _velocity : Nat) : List Action :=
  if channel ≠ CHAN_PADS then []
  else if note = NOTE_PAD_UP then [Action.cuia "ARROW_UP" []]
  else if note = NOTE_PAD_DOWN then [Action.cuia "ARROW_DOWN" []]
  else if note = NOTE_PAD_LEFT then [Action.cuia "ARROW_LEFT" []]
  else if note = NOTE_PAD_RIGHT then [Action.cuia "ARROW_RIGHT" []]
  else if note = NOTE_PAD_BACK then [Action.cuia "BACK" []]
  else if note = NOTE_PAD_SELECT then [Action.cuia "SELECT" []]
  else if note = NOTE_PAD_SNAPSHOT then [Action.cuia "SCREEN_ZS3" []]
  else if note = NOTE_PAD_LAYER then [Action.cuia "LAYER_TOGGLE" []]
  else []

/-- `DeviceHandler.cc_change_with_channel(channel, ccnum, ccval)`:
only channel 1 (hardware Bank A) is handled; knobs CC 50..53 are converted
from absolute values to deltas against `_last_cc_values`, the delta is forced
to 0 on the first touch of a `(channel, ccnum)` key, the new absolute value is
stored, and a nonzero delta emits `ZYNPOT [pot_idx, delta]`. -/
def cc_change_with_channel (s : DeviceState) (channel ccnum ccval : Nat) :
    DeviceState × List Action :=
  if channel = 1 then
    let pot_offset := 0
    if 50 ≤ ccnum ∧ ccnum ≤ 53 then
      let pot_idx := ccnum - 50 + pot_offset
      let last_val := (s.last_cc_values (channel, ccnum)).getD ccval
      let delta : Int := (ccval : Int) - (last_val : Int)
      let delta : Int :=
        if s.last_cc_values (channel, ccnum) = none then 0 else delta
      let s' : DeviceState :=
        ⟨fun p => if p = (channel, ccnum) then some ccval else s.last_cc_values p⟩
      if delta ≠ 0 then (s', [Action.cuia "ZYNPOT" [(pot_idx : Int), delta]])
      else (s', [])
    else (s, [])
  else (s, [])

end DeviceHandler

/-! ### PatternHandler

`PatternHandler` keeps no mutable state the claims mention (its only attribute
beyond the host references is a `KnobSpeedControl` easing helper that the
handler never uses). -/

namespace PatternHandler

def CHAN_PADS : Nat := 10
def NOTE_PAD_PLAY : Nat := 36
def NOTE_PAD_STOP : Nat := 37
def NOTE_PAD_REC : Nat := 38

def CHAN_TRANSPORT : Nat := 0
def CC_PLAY : Nat := 118
def CC_STOP : Nat := 117
def CC_REC : Nat := 119

/-- `PatternHandler.note_on(note, channel, velocity)`. -/
def note_on (note channel _velocity : Nat) : List Action :=
  if channel = CHAN_PADS then
    if note = NOTE_PAD_PLAY then [Action.cuia "TOGGLE_PLAY" []]
    else if note = NOTE_PAD_STOP then [Action.cuia "STOP" []]
    else if note = NOTE_PAD_REC then [Action.cuia "TOGGLE_RECORD" []]
    else []
  else []

/-- `PatternHandler.cc_change_with_channel(channel, ccnum, ccval)`. -/
def cc_change_with_channel (channel ccnum _ccval : Nat) : List Action :=
  if channel = CHAN_TRANSPORT then
    if ccnum = CC_PLAY then [Action.cuia "TOGGLE_PLAY" []]
    else if ccnum = CC_STOP then [Action.cuia "STOP" []]
    else if ccnum = CC_REC then [Action.cuia "TOGGLE_RECORD" []]
    else []
  else []

end PatternHandler

/-! ### The driver -/

/-- Driver-internal mutable state: the current-handler pointer and
`_current_screen` (the driver object), plus the mutable attributes of the two
stateful handlers it owns. -/
structure DriverState where
  current_handler : HandlerId
  current_screen : Option String
  mixer_state : MixerState
  device_state : DeviceState

/-- A raw 3-byte MIDI message as the host frames it. -/
structure MidiMsg where
  b0 : Nat
  b1 : Nat
  b2 : Nat
  deriving DecidableEq, Repr

/-- The CC branch of `midi_event`: every handler defines
`cc_change_with_channel`, so the `hasattr` test always takes that branch and
the event goes to `self._current_handler`. -/
def dispatch_cc (s : DriverState) (env : Env) (channel ccnum ccval : Nat) :
    DriverState × Env × List Action :=
  match s.current_handler with
  | .mixer =>
    let r := MixerHandler.cc_change_with_channel s.mixer_state env channel ccnum ccval
    (s, r.1, r.2)
  | .device =>
    let r := DeviceHandler.cc_change_with_channel s.device_state channel ccnum ccval
    ({ s with device_state := r.1 }, env, r.2)
  | .pattern =>
    (s, env, PatternHandler.cc_change_with_channel channel ccnum ccval)

/-- The Note-On branch of `midi_event`. -/
def dispatch_note_on (s : DriverState) (env : Env) (note channel velocity : Nat) :
    DriverState × Env × List Action :=
  match s.current_handler with
  | .mixer => (s, MixerHandler.note_on s.mixer_state env note channel velocity, [])
  | .device => (s, env, DeviceHandler.note_on note channel velocity)
  | .pattern => (s, env, PatternHandler.note_on note channel velocity)

/-- The Note-Off branch of `midi_event`: none of the three handlers overrides
`note_off`, so the call hits the host base class `ModeHandlerBase` (not in the
repository), whose default handler does nothing. -/
def dispatch_note_off (s : DriverState) (env : Env) (_note _channel : Nat) :
    DriverState × Env × List Action :=
  (s, env, [])

/-- `_change_handler(new_handler)`: a no-op when the new handler is already
current, otherwise `set_active(False)` on the old handler, swap the pointer,
`set_active(True)` on the new one. -/
def change_handler (s : DriverState) (new : HandlerId) : DriverState × List Action :=
  if new = s.current_handler then (s, [])
  else ({ s with current_handler := new },
    [Action.setActive s.current_handler false, Action.setActive new true])

/-- `midi_event(ev)`: decodes `evtype = (ev[0] >> 4) & 0x0F` and
`channel = ev[0] & 0x0F`, then compares `evtype` against the module-level
`CONST` values (`0xB0`, `0x90`, `0x80`, `0xC0`) to pick a branch; the PC
branch reserves programs 0/1/2 for mode switching. -/
def midi_event (s : DriverState) (env : Env) (ev : MidiMsg) :
    DriverState × Env × List Action :=
  let evtype := (ev.b0 >>> 4) &&& 0x0F
  let channel := ev.b0 &&& 0x0F
  if evtype = MIDI_CC then
    dispatch_cc s env channel (ev.b1 &&& 0x7F) (ev.b2 &&& 0x7F)
  else if evtype = MIDI_NOTE_ON then
    dispatch_note_on s env (ev.b1 &&& 0x7F) channel (ev.b2 &&& 0x7F)
  else if evtype = MIDI_NOTE_OFF then
    dispatch_note_off s env (ev.b1 &&& 0x7F) channel
  else if evtype = MIDI_PC then
    let program := ev.b1 &&& 0x7F
    if program = 0 then
      let r := change_handler s .mixer
      (r.1, env, r.2)
    else if program = 1 then
      let r := change_handler s .device
      (r.1, env, r.2)
    else if program = 2 then
      let r := change_handler s .pattern
      (r.1, env, r.2)
    else (s, env, [])
  else (s, env, [])

/-- `_on_gui_show_screen(screen)`: records `_current_screen`, forwards the
screen name to the three handlers (`on_screen_change`, in source order
device/mixer/pattern), then auto-switches the current handler by screen name. -/
def on_gui_show_screen (s : DriverState) (screen : String) :
    DriverState × List Action :=
  let s1 : DriverState := { s with current_screen := some screen }
  let fwd : List Action :=
    [Action.screenChange .device screen, Action.screenChange .mixer screen,
     Action.screenChange .pattern screen]
  let r :=
    if screen = "mixer" ∨ screen = "zynpad" then
      change_handler s1 .mixer
    else if screen = "control" ∨ screen = "preset" ∨ screen = "main_menu"
        ∨ screen = "admin" then
      change_handler s1 .device
    else if screen = "pattern_editor" ∨ screen = "arranger" then
      change_handler s1 .pattern
    else (s1, [])
  (r.1, fwd ++ r.2)

/-! ### Resource lifecycle -/

/-- Multiset of live registrations the driver's lifecycle touches, as counts:
the base class's periodic callback and the `SS_GUI_SHOW_SCREEN` signal
subscription. -/
structure Registrations where
  periodic : Nat
  gui_show_screen : Nat
  deriving DecidableEq, Repr

/-- The signal keys in `self._signals` (one entry:
`(S_GUI, SS_GUI_SHOW_SCREEN, self._on_gui_show_screen)`). -/
inductive SignalKey where
  | gui_show_screen
  deriving DecidableEq, Repr

/-- The `self._signals` list built in `__init__`. -/
def driver_signals : List SignalKey := [SignalKey.gui_show_screen]

/-- `zynsigman.register` for one of the driver's signal keys. -/
def register_signal (r : Registrations) (k : SignalKey) : Registrations :=
  match k with
  | .gui_show_screen => { r with gui_show_screen := r.gui_show_screen + 1 }

/-- `zynsigman.unregister` for one of the driver's signal keys. -/
def unregister_signal (r : Registrations) (k : SignalKey) : Registrations :=
  match k with
  | .gui_show_screen => { r with gui_show_screen := r.gui_show_screen - 1 }

/-- Modelled from the spec: the base class `zynthian_ctrldev_zynmixer` is host
code outside this repository; per the spec the driver's lifecycle registers
exactly one periodic callback through `super().init()`. -/
def base_class_init (r : Registrations) : Registrations :=
  { r with periodic := r.periodic + 1 }

/-- Modelled from the spec: `super().end()` unregisters the one periodic
callback that `super().init()` registered. -/
def base_class_end (r : Registrations) : Registrations :=
  { r with periodic := r.periodic - 1 }

/-- `init(self)`: `super().init()` first, then register every signal in
`self._signals`. -/
def driver_init (r : Registrations) : Registrations :=
  driver_signals.foldl register_signal (base_class_init r)

/-- `end(self)`: unregister every signal in `self._signals`, then
`super().end()`. -/
def driver_end (r : Registrations) : Registrations :=
  base_class_end (driver_signals.foldl unregister_signal r)

/-! ### Dispatch-table membership

The flat lookup tables of the three handlers (and the driver-level PC mode
switch), as a predicate on raw messages: which `(evtype, channel, data1)`
combination reaches an action-bearing branch of the given handler.  Used to
state which messages the spec regards as "recognized". -/

/-- A message matches an entry of the given handler's dispatch table (or the
driver-level Program-Change mode-switch table). -/
def matchesDispatch (h : HandlerId) (ev : MidiMsg) : Bool :=
  let evtype := (ev.b0 >>> 4) &&& 0x0F
  let channel := ev.b0 &&& 0x0F
  let d1 := ev.b1 &&& 0x7F
  if evtype = 0xB then
    match h with
    | .mixer => decide ((channel = 0 ∧ 114 ≤ d1 ∧ d1 ≤ 119) ∨
        (50 ≤ d1 ∧ d1 ≤ 57 ∧ (channel = 1 ∨ channel = 2 ∨ channel = 3)))
    | .device => decide (channel = 1 ∧ 50 ≤ d1 ∧ d1 ≤ 53)
    | .pattern => decide (channel = 0 ∧ (d1 = 117 ∨ d1 = 118 ∨ d1 = 119))
  else if evtype = 0x9 then
    match h with
    | .mixer => decide (channel = 10 ∧ 36 ≤ d1 ∧ d1 ≤ 51)
    | .device => decide (channel = 10 ∧ 36 ≤ d1 ∧ d1 ≤ 43)
    | .pattern => decide (channel = 10 ∧ (d1 = 36 ∨ d1 = 37 ∨ d1 = 38))
  else if evtype = 0xC then
    decide (d1 ≤ 2)
  else
    false

/-! ### Sample states for concrete evaluations -/

/-- A mixer with all levels and balances at 0 and nothing muted. -/
def mixer0 : ZynMixer := ⟨fun _ => 0, fun _ => 0, fun _ => false⟩

/-- A host state with no chains. -/
def env0 : Env := ⟨fun _ => none, mixer0⟩

/-- A host state with a single chain (`chain_id = 1`, `mixer_chan = 5`,
solo off) at index 0. -/
def env1 : Env :=
  ⟨fun i => if i = 0 then some ⟨1, 5, false⟩ else none, mixer0⟩

/-- A fresh `DeviceHandler` cache. -/
def dev0 : DeviceState := ⟨fun _ => none⟩

/-- The driver right after `__init__`: `MixerHandler` current, no screen
seen, `chains_bank = 0`, empty knob cache. -/
def st0 : DriverState := ⟨.mixer, none, ⟨0⟩, dev0⟩

/-- The driver with `DeviceHandler` current and a fresh knob cache. -/
def stDev : DriverState := ⟨.device, none, ⟨0⟩, dev0⟩

/-! ### The dead event-type comparison in `midi_event`

`midi_event` computes `evtype = (ev[0] >> 4) & 0x0F`, a value in `0..15`,
but compares it with the module-level constants `CONST.MIDI_CC = 0xB0`,
`CONST.MIDI_NOTE_ON = 0x90`, `CONST.MIDI_NOTE_OFF = 0x80`,
`CONST.MIDI_PC = 0xC0`, all of which exceed 15.  Every comparison is
therefore false and `midi_event` drops every message. -/

theorem evtype_le (ev : MidiMsg) : (ev.b0 >>> 4) &&& 0x0F ≤ 0x0F :=
  Nat.and_le_right

theorem midi_event_ignores (s : DriverState) (env : Env) (ev : MidiMsg) :
    midi_event s env ev = (s, env, []) := by
  have h := evtype_le ev
  have h1 : (ev.b0 >>> 4) &&& 0x0F ≠ MIDI_CC :=
    fun hc => absurd (hc ▸ h) (by decide)
  have h2 : (ev.b0 >>> 4) &&& 0x0F ≠ MIDI_NOTE_ON :=
    fun hc => absurd (hc ▸ h) (by decide)
  have h3 : (ev.b0 >>> 4) &&& 0x0F ≠ MIDI_NOTE_OFF :=
    fun hc => absurd (hc ▸ h) (by decide)
  have h4 : (ev.b0 >>> 4) &&& 0x0F ≠ MIDI_PC :=
    fun hc => absurd (hc ▸ h) (by decide)
  simp [midi_event, h1, h2, h3, h4]

/-- C1: the spec says every incoming CC/Note event is dispatched to the
current handler.  In the code as written this fails for every event: at the
failing input `ev = (0xB0, 0x75, 0x7F)` (a CC on channel 0, CC#117, the
transport-stop key of the current MixerHandler's table) `midi_event` drops
the event and performs no dispatch, although the MixerHandler branch it was
meant to reach would have emitted `STOP_AUDIO_PLAY`.  The cause: `evtype` is
the status nibble `(ev[0] >> 4) & 0x0F ∈ 0..15`, compared against
`CONST.MIDI_CC = 0xB0`. -/
theorem c1_dispatch_dead :
    midi_event st0 env0 ⟨0xB0, 117, 127⟩ = (st0, env0, []) ∧
    st0.current_handler = HandlerId.mixer ∧
    (MixerHandler.cc_change_with_channel st0.mixer_state env0 0 117 127).2 =
      [Action.cuia "STOP_AUDIO_PLAY" []] :=
  ⟨midi_event_ignores st0 env0 ⟨0xB0, 117, 127⟩, rfl, rfl⟩

/-- C2: a MIDI event that matches no entry of the current handler's dispatch
table causes no host action and leaves the driver state and the host state
unchanged: unrecognized messages are silently ignored. -/
theorem c2_unmatched_events_ignored (s : DriverState) (env : Env) (ev : MidiMsg)
    (_h : matchesDispatch s.current_handler ev = false) :
    midi_event s env ev = (s, env, []) :=
  midi_event_ignores s env ev

theorem c2_witness :
    matchesDispatch st0.current_handler ⟨0xB5, 20, 0⟩ = false ∧
    midi_event st0 env0 ⟨0xB5, 20, 0⟩ = (st0, env0, []) :=
  ⟨by decide, c2_unmatched_events_ignored st0 env0 ⟨0xB5, 20, 0⟩ (by decide)⟩

/-- C8: the spec-implied claim that a Program-Change with program 0/1/2 makes
the corresponding handler current fails in the code as written: at the failing
input `ev = (0xC0, 0x01, 0x00)` (Program-Change, program 1) `midi_event`
leaves MixerHandler current, because `evtype ∈ 0..15` is compared against
`CONST.MIDI_PC = 0xC0`.  `_change_handler` itself does implement the claimed
switching discipline: switching to the current handler is a no-op and
switching to a different one emits `set_active(False)` on the old handler then
`set_active(True)` on the new one. -/
theorem c8_pc_mode_switch_dead :
    midi_event st0 env0 ⟨0xC0, 1, 0⟩ = (st0, env0, []) ∧
    st0.current_handler = HandlerId.mixer ∧
    (change_handler st0 .device).1.current_handler = HandlerId.device ∧
    (change_handler st0 .device).2 =
      [Action.setActive .mixer false, Action.setActive .device true] ∧
    change_handler st0 .mixer = (st0, []) :=
  ⟨midi_event_ignores st0 env0 ⟨0xC0, 1, 0⟩, rfl, rfl, rfl, rfl⟩

/-- C4: the dispatch logic is a flat lookup on fixed constants.  In Mixer mode
a CC on channel 0 with number 117/118/119/114/116/115 sends exactly the CUIA
command STOP_AUDIO_PLAY / TOGGLE_AUDIO_PLAY / TOGGLE_AUDIO_RECORD /
TOGGLE_LOOP / FORWARD / BACKWARD, and in Device mode a Note-On on channel 10
with note 36..43 sends exactly ARROW_UP / ARROW_DOWN / ARROW_LEFT /
ARROW_RIGHT / BACK / SELECT / SCREEN_ZS3 / LAYER_TOGGLE; each mapped pair
triggers exactly one host action. -/
theorem c4_flat_lookup (s : MixerState) (env : Env) (v : Nat) :
    ((MixerHandler.cc_change_with_channel s env 0 117 v).2 =
      [Action.cuia "STOP_AUDIO_PLAY" []])
  ∧ ((MixerHandler.cc_change_with_channel s env 0 118 v).2 =
      [Action.cuia "TOGGLE_AUDIO_PLAY" []])
  ∧ ((MixerHandler.cc_change_with_channel s env 0 119 v).2 =
      [Action.cuia "TOGGLE_AUDIO_RECORD" []])
  ∧ ((MixerHandler.cc_change_with_channel s env 0 114 v).2 =
      [Action.cuia "TOGGLE_LOOP" []])
  ∧ ((MixerHandler.cc_change_with_channel s env 0 116 v).2 =
      [Action.cuia "FORWARD" []])
  ∧ ((MixerHandler.cc_change_with_channel s env 0 115 v).2 =
      [Action.cuia "BACKWARD" []])
  ∧ (DeviceHandler.note_on 36 10 v = [Action.cuia "ARROW_UP" []])
  ∧ (DeviceHandler.note_on 37 10 v = [Action.cuia "ARROW_DOWN" []])
  ∧ (DeviceHandler.note_on 38 10 v = [Action.cuia "ARROW_LEFT" []])
  ∧ (DeviceHandler.note_on 39 10 v = [Action.cuia "ARROW_RIGHT" []])
  ∧ (DeviceHandler.note_on 40 10 v = [Action.cuia "BACK" []])
  ∧ (DeviceHandler.note_on 41 10 v = [Action.cuia "SELECT" []])
  ∧ (DeviceHandler.note_on 42 10 v = [Action.cuia "SCREEN_ZS3" []])
  ∧ (DeviceHandler.note_on 43 10 v = [Action.cuia "LAYER_TOGGLE" []]) :=
  ⟨rfl, rfl, rfl, rfl, rfl, rfl, rfl, rfl, rfl, rfl, rfl, rfl, rfl, rfl⟩

/-! ### Reduction lemmas for `_update_chain` -/

theorem update_chain_level (s : MixerState) (env : Env) (n v : Nat) (mn mx : ℚ)
    (chain : Chain) (idx : Nat) (hidx : n - 50 + s.chains_bank * 8 = idx)
    (hc : env.chains idx = some chain) (hid : chain.chain_id ≠ 0) :
    MixerHandler.update_chain s env "level" n v (some mn) (some mx) =
      ({ env with mixer := set_level env.mixer chain.mixer_chan (mn + ((v : ℚ) / 127) * (mx - mn)) }, true) := by
  simp only [MixerHandler.update_chain, MixerHandler.CC_KNOBS_START]
  rw [hidx, hc]
  simp [hid]

theorem update_chain_balance (s : MixerState) (env : Env) (n v : Nat) (mn mx : ℚ)
    (chain : Chain) (idx : Nat) (hidx : n - 50 + s.chains_bank * 8 = idx)
    (hc : env.chains idx = some chain) (hid : chain.chain_id ≠ 0) :
    MixerHandler.update_chain s env "balance" n v (some mn) (some mx) =
      ({ env with mixer := set_balance env.mixer chain.mixer_chan (mn + ((v : ℚ) / 127) * (mx - mn)) }, true) := by
  simp only [MixerHandler.update_chain, MixerHandler.CC_KNOBS_START]
  rw [hidx, hc]
  simp [hid]

theorem update_chain_mute (s : MixerState) (env : Env) (n v : Nat)
    (chain : Chain) (idx : Nat) (hidx : n - 50 + s.chains_bank * 8 = idx)
    (hc : env.chains idx = some chain) (hid : chain.chain_id ≠ 0) :
    MixerHandler.update_chain s env "mute_toggle" n v none none =
      ({ env with mixer := set_mute env.mixer chain.mixer_chan (! env.mixer.mute chain.mixer_chan) }, true) := by
  simp only [MixerHandler.update_chain, MixerHandler.CC_KNOBS_START]
  rw [hidx, hc]
  simp [hid]

theorem update_chain_solo (s : MixerState) (env : Env) (n v : Nat)
    (chain : Chain) (idx : Nat) (hidx : n - 50 + s.chains_bank * 8 = idx)
    (hc : env.chains idx = some chain) (hid : chain.chain_id ≠ 0) :
    MixerHandler.update_chain s env "solo_toggle" n v none none =
      (set_solo env idx (! chain.solo), true) := by
  simp only [MixerHandler.update_chain, MixerHandler.CC_KNOBS_START]
  rw [hidx, hc]
  simp [hid]

/-- C3: in Mixer mode, for a knob CC number in 50..57 addressing an existing
chain with nonzero id at index `ccnum - 50 + chains_bank * 8`, a CC on
channel 1 sets the chain's mixer level to `0 + (ccval/127)*100` and a CC on
channel 2 sets its balance to `-100 + (ccval/127)*200`. -/
theorem c3_mixer_volume_pan (s : MixerState) (env : Env) (n v : Nat) (chain : Chain)
    (hn1 : 50 ≤ n) (hn2 : n ≤ 57)
    (hc : env.chains (n - 50 + s.chains_bank * 8) = some chain)
    (hid : chain.chain_id ≠ 0) :
    ((MixerHandler.cc_change_with_channel s env 1 n v).1.mixer.level chain.mixer_chan
        = 0 + ((v : ℚ) / 127) * 100)
  ∧ ((MixerHandler.cc_change_with_channel s env 2 n v).1.mixer.balance chain.mixer_chan
        = -100 + ((v : ℚ) / 127) * 200) := by
  have eL := update_chain_level s env n v 0 100 chain _ rfl hc hid
  have eB := update_chain_balance s env n v (-100) 100 chain _ rfl hc hid
  constructor
  · simp [MixerHandler.cc_change_with_channel, MixerHandler.CHAN_TRANSPORT,
      MixerHandler.CHAN_KNOBS_A, MixerHandler.CC_KNOBS_START,
      MixerHandler.CC_KNOBS_END, MixerHandler.update_volume, hn1, hn2, eL, set_level]
  · simp [MixerHandler.cc_change_with_channel, MixerHandler.CHAN_TRANSPORT,
      MixerHandler.CHAN_KNOBS_A, MixerHandler.CHAN_KNOBS_B,
      MixerHandler.CC_KNOBS_START, MixerHandler.CC_KNOBS_END,
      MixerHandler.update_pan, hn1, hn2, eB, set_balance]
    norm_num

theorem c3_witness :
    env1.chains (50 - 50 + (⟨0⟩ : MixerState).chains_bank * 8) = some ⟨1, 5, false⟩
  ∧ ((MixerHandler.cc_change_with_channel ⟨0⟩ env1 1 50 64).1.mixer.level 5
      = 0 + ((64 : ℚ) / 127) * 100)
  ∧ ((MixerHandler.cc_change_with_channel ⟨0⟩ env1 2 50 64).1.mixer.balance 5
      = -100 + ((64 : ℚ) / 127) * 200) :=
  ⟨rfl,
   (c3_mixer_volume_pan ⟨0⟩ env1 50 64 ⟨1, 5, false⟩ (by decide) (by decide)
      rfl (by decide)).1,
   (c3_mixer_volume_pan ⟨0⟩ env1 50 64 ⟨1, 5, false⟩ (by decide) (by decide)
      rfl (by decide)).2⟩

/-! ### Reduction lemmas for `MixerHandler.note_on` -/

theorem note_on_mute_eq (s : MixerState) (env : Env) (note vel : Nat) (chain : Chain)
    (h1 : 36 ≤ note) (h2 : note ≤ 43)
    (hc : env.chains (note - 36 + s.chains_bank * 8) = some chain)
    (hid : chain.chain_id ≠ 0) :
    MixerHandler.note_on s env note 10 vel =
      { env with mixer := set_mute env.mixer chain.mixer_chan (! env.mixer.mute chain.mixer_chan) } := by
  have e := update_chain_mute s env (note - 36 + 50) 127 chain
    (note - 36 + s.chains_bank * 8) (by omega) hc hid
  simp [MixerHandler.note_on, MixerHandler.CHAN_PADS, MixerHandler.NOTE_PAD_START_A,
    MixerHandler.NOTE_PAD_END_A, MixerHandler.NOTE_PAD_START_B,
    MixerHandler.NOTE_PAD_END_B, MixerHandler.CC_KNOBS_START, h1, h2, e]

theorem note_on_solo_eq (s : MixerState) (env : Env) (note vel : Nat) (chain : Chain)
    (h1 : 44 ≤ note) (h2 : note ≤ 51)
    (hc : env.chains (note - 44 + s.chains_bank * 8) = some chain)
    (hid : chain.chain_id ≠ 0) :
    MixerHandler.note_on s env note 10 vel =
      set_solo env (note - 44 + s.chains_bank * 8) (! chain.solo) := by
  have e := update_chain_solo s env (note - 44 + 50) 127 chain
    (note - 44 + s.chains_bank * 8) (by omega) hc hid
  simp [MixerHandler.note_on, MixerHandler.CHAN_PADS, MixerHandler.NOTE_PAD_START_A,
    MixerHandler.NOTE_PAD_END_A, MixerHandler.NOTE_PAD_START_B,
    MixerHandler.NOTE_PAD_END_B, MixerHandler.CC_KNOBS_START, h1, h2, e]
  intro _ha hb
  exact absurd h1 (by omega)

/-- C5: in Mixer mode a Note-On on channel 10 with note 36..43 toggles the
mute flag of the chain at index `note - 36 + chains_bank * 8`, and with note
44..51 toggles the solo flag of the chain at index `note - 44 +
chains_bank * 8`; pressing the same pad twice restores the original mute
(resp. solo) state. -/
theorem c5_mute_solo_toggle (s : MixerState) (env : Env) (note vel : Nat)
    (chain : Chain) :
    (36 ≤ note → note ≤ 43 →
      env.chains (note - 36 + s.chains_bank * 8) = some chain →
      chain.chain_id ≠ 0 →
      ((MixerHandler.note_on s env note 10 vel).mixer.mute chain.mixer_chan
          = ! env.mixer.mute chain.mixer_chan)
      ∧ ((MixerHandler.note_on s (MixerHandler.note_on s env note 10 vel)
            note 10 vel).mixer.mute chain.mixer_chan
          = env.mixer.mute chain.mixer_chan))
  ∧ (44 ≤ note → note ≤ 51 →
      env.chains (note - 44 + s.chains_bank * 8) = some chain →
      chain.chain_id ≠ 0 →
      ((MixerHandler.note_on s env note 10 vel).chains
            (note - 44 + s.chains_bank * 8)
          = some { chain with solo := ! chain.solo })
      ∧ ((MixerHandler.note_on s (MixerHandler.note_on s env note 10 vel)
            note 10 vel).chains (note - 44 + s.chains_bank * 8)
          = some chain)) := by
  obtain ⟨cid, mc, sl⟩ := chain
  constructor
  · intro h1 h2 hc hid
    have e1 := note_on_mute_eq s env note vel ⟨cid, mc, sl⟩ h1 h2 hc hid
    have hc2 : ({ env with mixer := set_mute env.mixer mc (! env.mixer.mute mc) } : Env).chains (note - 36 + s.chains_bank * 8) = some (⟨cid, mc, sl⟩ : Chain) := hc
    have e2 := note_on_mute_eq s _ note vel ⟨cid, mc, sl⟩ h1 h2 hc2 hid
    rw [e1]
    refine ⟨by simp [set_mute], ?_⟩
    rw [e2]
    simp [set_mute]
  · intro h1 h2 hc hid
    have e1 := note_on_solo_eq s env note vel ⟨cid, mc, sl⟩ h1 h2 hc hid
    have hc2 : (set_solo env (note - 44 + s.chains_bank * 8) (! sl)).chains (note - 44 + s.chains_bank * 8) = some (⟨cid, mc, ! sl⟩ : Chain) := by
      simp [set_solo, hc]
    have e2 := note_on_solo_eq s _ note vel ⟨cid, mc, ! sl⟩ h1 h2 hc2 hid
    rw [e1]
    refine ⟨by simp [set_solo, hc], ?_⟩
    rw [e2]
    simp [set_solo, hc]

theorem c5_witness :
    env1.chains (36 - 36 + (⟨0⟩ : MixerState).chains_bank * 8) = some ⟨1, 5, false⟩
  ∧ ((MixerHandler.note_on ⟨0⟩ env1 36 10 127).mixer.mute 5 = ! env1.mixer.mute 5)
  ∧ ((MixerHandler.note_on ⟨0⟩ (MixerHandler.note_on ⟨0⟩ env1 36 10 127)
        36 10 127).mixer.mute 5 = env1.mixer.mute 5)
  ∧ ((MixerHandler.note_on ⟨0⟩ env1 44 10 127).chains
        (44 - 44 + (⟨0⟩ : MixerState).chains_bank * 8)
      = some ⟨1, 5, ! false⟩)
  ∧ ((MixerHandler.note_on ⟨0⟩ (MixerHandler.note_on ⟨0⟩ env1 44 10 127)
        44 10 127).chains (44 - 44 + (⟨0⟩ : MixerState).chains_bank * 8)
      = some ⟨1, 5, false⟩) := by
  have hm := (c5_mute_solo_toggle ⟨0⟩ env1 36 127 ⟨1, 5, false⟩).1
    (by decide) (by decide) rfl (by decide)
  have hs := (c5_mute_solo_toggle ⟨0⟩ env1 44 127 ⟨1, 5, false⟩).2
    (by decide) (by decide) rfl (by decide)
  exact ⟨rfl, hm.1, hm.2, hs.1, hs.2⟩

/-! ### Frame lemmas on handler dispatch -/

theorem change_handler_current (s : DriverState) (x : HandlerId) :
    (change_handler s x).1.current_handler = x := by
  unfold change_handler
  split_ifs with h
  · exact h.symm
  · rfl

theorem change_handler_screen (s : DriverState) (x : HandlerId) :
    (change_handler s x).1.current_screen = s.current_screen := by
  unfold change_handler
  split_ifs <;> rfl

/-- C6 (counterexample): processing a CC event is claimed to leave every
driver-internal field except the current-handler pointer unchanged, including
per-knob last-value records.  With DeviceHandler current and a fresh cache, a
CC on channel 1, number 50, value 64 changes
`DeviceHandler._last_cc_values[(1, 50)]` from absent to 64. -/
theorem c6_counterexample_cache :
    (dispatch_cc stDev env0 1 50 64).1.device_state.last_cc_values (1, 50) ≠
      stDev.device_state.last_cc_values (1, 50) := by decide

/-- C6 (amended): dispatching a CC or Note event to the current handler never
changes the current-handler pointer, the recorded screen or the Mixer
handler's chains bank; the only driver-internal field a CC/Note dispatch can
change is the Device handler's per-knob cache `_last_cc_values`, and Note
events change no driver-internal field at all. -/
theorem c6_frame_amended (s : DriverState) (env : Env) (c n v note vel : Nat) :
    ((dispatch_cc s env c n v).1.current_handler = s.current_handler
      ∧ (dispatch_cc s env c n v).1.current_screen = s.current_screen
      ∧ (dispatch_cc s env c n v).1.mixer_state = s.mixer_state)
    ∧ (dispatch_note_on s env note c vel).1 = s
    ∧ (dispatch_note_off s env note c).1 = s := by
  refine ⟨⟨?_, ?_, ?_⟩, ?_, ?_⟩ <;>
    cases h : s.current_handler <;>
      simp [dispatch_cc, dispatch_note_on, dispatch_note_off, h]

/-- C7: the driver's lifecycle registers exactly one periodic callback (via
the base class) and one UI screen-change signal in `init`, and `end` after
`init` removes exactly the registrations `init` made, returning to the
starting state. -/
theorem c7_lifecycle (r : Registrations) :
    driver_init r = ⟨r.periodic + 1, r.gui_show_screen + 1⟩
  ∧ driver_end (driver_init r) = r
  ∧ driver_init ⟨0, 0⟩ = ⟨1, 1⟩ := by
  obtain ⟨p, g⟩ := r
  refine ⟨rfl, ?_, rfl⟩
  simp [driver_init, driver_end, driver_signals, register_signal,
    unregister_signal, base_class_init, base_class_end]

/-- C9: on a UI screen-change signal the driver records the screen name,
forwards it to all three handlers, and auto-switches the current handler:
"mixer"/"zynpad" select MixerHandler, "control"/"preset"/"main_menu"/"admin"
select DeviceHandler, "pattern_editor"/"arranger" select PatternHandler, and
any other screen name leaves the current handler unchanged. -/
theorem c9_screen_change (s : DriverState) (screen : String) :
    ((on_gui_show_screen s screen).1.current_screen = some screen)
  ∧ (∀ h : HandlerId, Action.screenChange h screen ∈ (on_gui_show_screen s screen).2)
  ∧ ((on_gui_show_screen s screen).1.current_handler =
      if screen = "mixer" ∨ screen = "zynpad" then HandlerId.mixer
      else if screen = "control" ∨ screen = "preset" ∨ screen = "main_menu"
          ∨ screen = "admin" then HandlerId.device
      else if screen = "pattern_editor" ∨ screen = "arranger" then HandlerId.pattern
      else s.current_handler) := by
  refine ⟨?_, ?_, ?_⟩
  · simp only [on_gui_show_screen]
    split_ifs <;> simp [change_handler_screen]
  · intro h
    cases h <;> simp [on_gui_show_screen]
  · simp only [on_gui_show_screen]
    split_ifs <;> first | exact change_handler_current _ _ | rfl

/-- C10: in Device mode the knobs work as absolute-to-relative converters on
channel 1, CC 50..53: the first CC for a fresh `(channel, ccnum)` key emits
nothing (jump suppressed) and stores the value; a subsequent CC with value `v`
against stored value `prev` stores `v` and emits `ZYNPOT [ccnum - 50,
v - prev]` exactly when the delta is nonzero; CCs on any other channel or out
of 50..53 do nothing. -/
theorem c10_device_knob_deltas :
    (∀ (d : DeviceState) (n v : Nat), 50 ≤ n → n ≤ 53 →
        d.last_cc_values (1, n) = none →
        (DeviceHandler.cc_change_with_channel d 1 n v).2 = []
        ∧ (DeviceHandler.cc_change_with_channel d 1 n v).1.last_cc_values (1, n)
            = some v)
  ∧ (∀ (d : DeviceState) (n v prev : Nat), 50 ≤ n → n ≤ 53 →
        d.last_cc_values (1, n) = some prev →
        ((DeviceHandler.cc_change_with_channel d 1 n v).2 =
            if (v : Int) = (prev : Int) then []
            else [Action.cuia "ZYNPOT" [(n : Int) - 50, (v : Int) - (prev : Int)]])
        ∧ (DeviceHandler.cc_change_with_channel d 1 n v).1.last_cc_values (1, n)
            = some v)
  ∧ (∀ (d : DeviceState) (c n v : Nat), c ≠ 1 ∨ ¬ (50 ≤ n ∧ n ≤ 53) →
        DeviceHandler.cc_change_with_channel d c n v = (d, [])) := by
  refine ⟨?_, ?_, ?_⟩
  · intro d n v h1 h2 h0
    constructor
    · simp [DeviceHandler.cc_change_with_channel, h0, h1, h2]
    · simp [DeviceHandler.cc_change_with_channel, h0, h1, h2]
  · intro d n v prev h1 h2 hp
    constructor
    · simp [DeviceHandler.cc_change_with_channel, hp, h1, h2, sub_ne_zero,
        apply_ite, ite_not, Nat.cast_sub h1]
    · simp [DeviceHandler.cc_change_with_channel, hp, h1, h2, apply_ite]
  · intro d c n v h
    rcases h with h | h
    · simp [DeviceHandler.cc_change_with_channel, h]
    · by_cases hc : c = 1
      · simp [DeviceHandler.cc_change_with_channel, hc, h]
      · simp [DeviceHandler.cc_change_with_channel, hc]

/-- A `DeviceHandler` cache holding value 64 for key `(1, 50)`. -/
def devP : DeviceState := ⟨fun p => if p = (1, 50) then some 64 else none⟩

theorem c10_witness :
    (dev0.last_cc_values (1, 50) = none
      ∧ (DeviceHandler.cc_change_with_channel dev0 1 50 64).2 = []
      ∧ (DeviceHandler.cc_change_with_channel dev0 1 50 64).1.last_cc_values (1, 50)
          = some 64)
  ∧ (devP.last_cc_values (1, 50) = some 64
      ∧ ((DeviceHandler.cc_change_with_channel devP 1 50 70).2 =
          if ((70 : Nat) : Int) = ((64 : Nat) : Int) then []
          else [Action.cuia "ZYNPOT"
            [((50 : Nat) : Int) - 50, ((70 : Nat) : Int) - ((64 : Nat) : Int)]])
      ∧ (DeviceHandler.cc_change_with_channel devP 1 50 70).1.last_cc_values (1, 50)
          = some 70)
  ∧ DeviceHandler.cc_change_with_channel devP 5 50 70 = (devP, []) :=
  ⟨⟨rfl, (c10_device_knob_deltas.1 dev0 50 64 (by decide) (by decide) rfl).1,
      (c10_device_knob_deltas.1 dev0 50 64 (by decide) (by decide) rfl).2⟩,
   ⟨rfl, (c10_device_knob_deltas.2.1 devP 50 70 64 (by decide) (by decide) rfl).1,
      (c10_device_knob_deltas.2.1 devP 50 70 64 (by decide) (by decide) rfl).2⟩,
   c10_device_knob_deltas.2.2 devP 5 50 70 (Or.inl (by decide))⟩

end MPK225
